import Mathlib

/-!
# Verification of the MKBA meeting-room reservation backend

Shallow embedding of the booking engine of this repository:
* `src/routes/reservations.js` — the reservation router: `checkReservationConflict`,
  `router.post('/')` (create), `router.delete('/:id')` (cancel),
  `router.post('/prioritaire')` (priority booking with preemption);
* the SMS service (`sendSMS`, `sendReservationSMS`, single-recipient senders).

Conventions of the embedding:
* times are minutes since midnight (`Nat`); the source parses `"HH:MM"` into exactly
  this quantity for its duration check, and SQL `time` comparison coincides with
  comparison of minutes;
* dates are day indices (`Nat`); the source compares `new Date(date) < today` at
  day granularity;
* SQL rows become Lean structures, tables become lists, and each query is translated
  clause by clause (including the `JOIN utilisateurs` / `JOIN salles` of the cancel
  and priority queries, modelled with `List.find?` on the joined table);
* the fallible outside world (Twilio transport, roster query, row inserts/updates)
  is an explicit `Behavior` oracle; code that JavaScript wraps in try/catch is
  modelled with `Except` plus a total catching wrapper;
* each HTTP handler is a function from a database state and a request to a
  `RunResult`: the database after the request (`BEGIN … COMMIT/ROLLBACK` semantics),
  the response (`Except` of the typed error matched from the thrown message), and
  an ordered trace of the side effects the handler performed.
-/

namespace MKBA

/-! ## Time windows and the conflict predicate -/

/-- Modelled from the spec (§4.1): the half-open overlap predicate
`A=(s1,e1)` and `B=(s2,e2)` overlap iff `s1 < e2 AND s2 < e1`.  This is the
spec-side definition used to compare against the SQL predicate actually
evaluated by the code. -/
def specOverlap (s1 e1 s2 e2 : Nat) : Bool :=
  decide (s1 < e2) && decide (s2 < e1)

/-- The three-clause OR evaluated by the SQL of `checkReservationConflict`
(src/routes/reservations.js lines 26–28) and, textually identically, by the
priority handler's inline conflict query (lines 396–398).
`(s1, e1)` is the requested window (`$3`, `$4`); `(s2, e2)` is the existing
row's `(heure_debut, heure_fin)`. -/
def conflictClause (s1 e1 s2 e2 : Nat) : Bool :=
  (decide (s2 < e1) && decide (e2 > s1)) ||
  (decide (s2 < e1) && decide (e2 > e1)) ||
  (decide (s2 ≥ s1) && decide (s2 < e1))

/-! ## Data model -/

/-- Row of the `utilisateurs` table (the fields the engine reads). -/
structure User where
  id : Nat
  nom : String
  telephone : String
  role : String
deriving DecidableEq, Repr

/-- Row of the `salles` table (the fields the engine reads). -/
structure Salle where
  id : Nat
  nom : String
  statut : String
deriving DecidableEq, Repr

/-- Row of the `reservations` table.  `updated` models whether
`updated_at = CURRENT_TIMESTAMP` has been applied to the row. -/
structure Reservation where
  id : Nat
  utilisateur_id : Nat
  salle_id : Nat
  date : Nat
  heure_debut : Nat
  heure_fin : Nat
  statut : String
  motif : Option String
  updated : Bool
deriving DecidableEq, Repr

/-- Row of the `notifications` table. -/
structure NotifRow where
  utilisateur_id : Nat
  reservation_id : Nat
  message : String
  type : String
  lu : Bool
deriving DecidableEq, Repr

/-- The persistent database state seen by the reservation router. -/
structure DB where
  utilisateurs : List User
  salles : List Salle
  reservations : List Reservation
  notifications : List NotifRow
  nextId : Nat
deriving DecidableEq, Repr

/-! ## The conflict queries -/

/-- The WHERE clause of `checkReservationConflict` applied to one row:
`salle_id = $1 AND date = $2 AND statut = 'active' AND (three-clause OR)`,
plus the optional `AND id != $5`. -/
def reservationConflictRow (salle_id date s e : Nat) (excludeId : Option Nat)
    (r : Reservation) : Bool :=
  (r.salle_id == salle_id) && (r.date == date) && (r.statut == "active") &&
  conflictClause s e r.heure_debut r.heure_fin &&
  (match excludeId with
   | none => true
   | some i => !(r.id == i))

/-- `checkReservationConflict` (src/routes/reservations.js lines 19–41):
returns whether the query found at least one row. -/
def checkReservationConflict (db : DB) (salle_id date s e : Nat)
    (excludeId : Option Nat) : Bool :=
  db.reservations.any (reservationConflictRow salle_id date s e excludeId)

/-- The priority handler's inline conflict query (lines 383–400): same WHERE
clause as `checkReservationConflict` (no exclude id), joined with
`utilisateurs` to fetch the owner of each conflicting reservation.  The inner
join drops a row whose owner id has no match in `utilisateurs`. -/
def conflictQuery (db : DB) (salle_id date s e : Nat) : List (Reservation × User) :=
  (db.reservations.filter (reservationConflictRow salle_id date s e none)).filterMap
    (fun r => (db.utilisateurs.find? (fun x => x.id == r.utilisateur_id)).map
      (fun x => (r, x)))

/-! ## The SMS service (src/services/sendSMS.js, shipped as src/server.js part 1) -/

/-- The phone check of `sendSMS`: the regex `^\+\d{10,15}$`. -/
def phoneValid (dest : String) : Bool :=
  match dest.data with
  | [] => false
  | c :: rest =>
    (c == '+') && rest.all (fun d => d.isDigit) &&
    decide (10 ≤ rest.length) && decide (rest.length ≤ 15)

/-- Result object returned by `sendSMS` (the fields the callers read). -/
structure SMSResult where
  success : Bool
  dest : String
deriving DecidableEq, Repr

/-- The body of `sendSMS`'s try-block: throws (`Except.error`) on an invalid
phone number, and propagates a rejected Twilio `messages.create` call.  The
`transport` oracle says whether Twilio delivers to a given number. -/
def sendSMSBody (transport : String → Bool) (dest _message : String) :
    Except String SMSResult :=
  if phoneValid dest = false then
    .error ("Numero de telephone invalide: " ++ dest)
  else if transport dest then .ok ⟨true, dest⟩
  else .error "twilio create failed"

/-- `sendSMS`: the catch-all wrapper around `sendSMSBody` — every thrown error
becomes a `success := false` result object; the function itself never fails. -/
def sendSMS (transport : String → Bool) (dest message : String) : SMSResult :=
  match sendSMSBody transport dest message with
  | .ok r => r
  | .error _ => ⟨false, dest⟩

/-- Result object of the roster fan-out `sendReservationSMS`. -/
structure RosterResult where
  success : Bool
  results : List SMSResult
deriving DecidableEq, Repr

/-- `sendReservationSMS`: queries the full user roster (`rosterQ` is the
outcome of `SELECT telephone, nom FROM utilisateurs`, whose failure the
function catches), returns `success := false` on query failure or an empty
roster, otherwise sends one SMS per user and reports
`success := (number of individual successes) > 0`. -/
def sendReservationSMS (transport : String → Bool)
    (rosterQ : Except String (List User))
    (nomSalle _dateStr _heureDebut _heureFin : String) : RosterResult :=
  match rosterQ with
  | .error _ => ⟨false, []⟩
  | .ok users =>
    if users.isEmpty then ⟨false, []⟩
    else
      let results := users.map (fun x =>
        sendSMS transport x.telephone ("Nouvelle reservation Salle: " ++ nomSalle))
      ⟨decide (0 < results.countP (fun r => r.success)), results⟩

/-! ## Handler plumbing -/

/-- Side-effect events a handler performs, in program order. -/
inductive Event
  | begin
  | insertReservation (id : Nat)
  | updateCancel (ids : List Nat)
  | smsSend (dest : String)
  | insertNotification
  | commit
  | rollback
deriving DecidableEq, Repr

def Event.isSms : Event → Bool
  | .smsSend _ => true
  | _ => false

def Event.isCommit : Event → Bool
  | .commit => true
  | _ => false

/-- The claim's ordering property as stated: no SMS dispatch happens before the
commit (every `smsSend` in the trace comes at or after the `commit`). -/
def noSmsBeforeCommit (tr : List Event) : Bool :=
  (tr.takeWhile (fun ev => !ev.isCommit)).all (fun ev => !ev.isSms)

/-- Ordering actually realized by the code on success: the trace commits, and
no SMS dispatch happens after the commit (they all happen inside the
transaction, before it). -/
def allSmsBeforeCommit (tr : List Event) : Bool :=
  tr.any Event.isCommit &&
  (tr.dropWhile (fun ev => !ev.isCommit)).all (fun ev => !ev.isSms)

/-- Oracle for the fallible outside world during one request. -/
structure Behavior where
  transport : String → Bool
  rosterQueryOk : Bool
  insertReservationOk : Bool
  updateCancelOk : Bool
  notifInsertOk : Bool

/-- Typed booking errors, matched from the thrown message strings of the
create / priority handlers (`ROLLBACK` + status-code mapping, lines 158–167
and 512–521).  `storage` is the generic 500 for any other thrown error. -/
inductive BookErr
  | pastDate
  | minDuration
  | salleNonTrouvee
  | salleNonDisponible
  | creneauReserve
  | storage
deriving DecidableEq, Repr

/-- Typed cancellation errors (404 / 403 / 400 / 500 of the delete handler). -/
inductive CancelErr
  | notFound
  | forbidden
  | invalidState
  | storage
deriving DecidableEq, Repr

/-- Outcome of one handler run: database after the request, response, and the
ordered side-effect trace. -/
structure RunResult (ε α : Type) where
  db : DB
  out : Except ε α
  trace : List Event

def isOk {ε α : Type} : Except ε α → Bool
  | .ok _ => true
  | .error _ => false

/-- The notification INSERT wrapped in its own try/catch: on failure the row
is not written and the secondary status flag becomes false. -/
def insertNotif (db : DB) (ok : Bool) (uid rid : Nat) (message ty : String) :
    DB × Bool :=
  if ok then
    ({ db with notifications := db.notifications ++ [⟨uid, rid, message, ty, false⟩] },
     true)
  else (db, false)

/-- The roster SELECT used by `sendReservationSMS`, with its failure mode. -/
def rosterSource (db : DB) (beh : Behavior) : Except String (List User) :=
  if beh.rosterQueryOk then .ok db.utilisateurs else .error "roster query failed"

/-- Row inserted by `INSERT INTO reservations …` — a fresh id, status
`active` (the column default), no update timestamp yet. -/
def mkReservation (nextId uid salle_id date s e : Nat) (motif : Option String) :
    Reservation :=
  ⟨nextId, uid, salle_id, date, s, e, "active", motif, false⟩

/-! ## Create (router.post('/'), lines 44–172) -/

/-- The precondition pipeline of the create handler, in source order
(lines 60–94): past date, minimum duration, room existence, room
availability, slot conflict.  First failure wins. -/
def createDecision (db : DB) (salle_id date s e today : Nat) :
    Except BookErr Salle :=
  if date < today then .error .pastDate
  else if e < s + 60 then .error .minDuration
  else
    match db.salles.find? (fun sa => sa.id == salle_id) with
    | none => .error .salleNonTrouvee
    | some salle =>
      if !(salle.statut == "disponible") then .error .salleNonDisponible
      else if checkReservationConflict db salle_id date s e none then
        .error .creneauReserve
      else .ok salle

/-- Successful response body of the create handler (fields the client reads). -/
structure CreateOk where
  reservation : Reservation
  smsStatus : Bool
  notificationStatus : Bool
deriving DecidableEq, Repr

/-- The create handler: BEGIN; preconditions; INSERT the reservation; roster
SMS fan-out (failure only clears `smsStatus`); notification audit INSERT
(failure only clears `notificationStatus`); COMMIT.  Any thrown error
rolls the transaction back and leaves the database untouched. -/
def createReservation (db : DB) (u : User) (salle_id date s e : Nat)
    (motif : Option String) (today : Nat) (beh : Behavior) :
    RunResult BookErr CreateOk :=
  match createDecision db salle_id date s e today with
  | .error er => ⟨db, .error er, [.begin, .rollback]⟩
  | .ok salle =>
    if beh.insertReservationOk then
      let newRes := mkReservation db.nextId u.id salle_id date s e motif
      let db1 : DB := { db with
        reservations := db.reservations ++ [newRes],
        nextId := db.nextId + 1 }
      let sms := sendReservationSMS beh.transport (rosterSource db beh)
        salle.nom (toString date) (toString s) (toString e)
      let notif := insertNotif db1 beh.notifInsertOk u.id newRes.id
        ("Reservation confirmee pour " ++ salle.nom)
        (if sms.success then "sms_envoye" else "sms_echec")
      ⟨notif.1, .ok ⟨newRes, sms.success, notif.2⟩,
        ([Event.begin, Event.insertReservation newRes.id]
          ++ sms.results.map (fun r => Event.smsSend r.dest)
          ++ [Event.insertNotification]) ++ [Event.commit]⟩
    else ⟨db, .error .storage, [.begin, .rollback]⟩

/-! ## Cancel (router.delete('/:id'), lines 238–333) -/

/-- The SELECT of the cancel handler: the reservation row joined (inner join)
with its owner and its room. -/
def cancelLookup (db : DB) (rid : Nat) : Option (Reservation × User × Salle) :=
  (db.reservations.find? (fun r => r.id == rid)).bind (fun r =>
    (db.utilisateurs.find? (fun x => x.id == r.utilisateur_id)).bind (fun owner =>
      (db.salles.find? (fun sa => sa.id == r.salle_id)).map (fun sa =>
        (r, owner, sa))))

/-- The precondition pipeline of the cancel handler, in source order
(lines 246–275): row found; requester is admin or owner; status is
`active`. -/
def cancelDecision (db : DB) (u : User) (rid : Nat) :
    Except CancelErr (Reservation × User × Salle) :=
  match cancelLookup db rid with
  | none => .error .notFound
  | some (r, owner, sa) =>
    if !(u.role == "admin") && !(r.utilisateur_id == u.id) then .error .forbidden
    else if !(r.statut == "active") then .error .invalidState
    else .ok (r, owner, sa)

/-- `UPDATE reservations SET statut = 'annulee', updated_at = CURRENT_TIMESTAMP
WHERE id = $2` applied to one row. -/
def cancelRow (rid : Nat) (r : Reservation) : Reservation :=
  if r.id == rid then { r with statut := "annulee", updated := true } else r

/-- Successful response body of the cancel handler. -/
structure CancelOk where
  reservationId : Nat
  smsStatus : Bool
  notificationStatus : Bool
deriving DecidableEq, Repr

/-- The cancel handler: BEGIN; preconditions; UPDATE the row to `annulee`;
cancellation SMS to the owner; notification audit INSERT; COMMIT. -/
def cancelReservation (db : DB) (u : User) (rid : Nat) (beh : Behavior) :
    RunResult CancelErr CancelOk :=
  match cancelDecision db u rid with
  | .error er => ⟨db, .error er, [.begin, .rollback]⟩
  | .ok (r, owner, _sa) =>
    if beh.updateCancelOk then
      let db1 : DB := { db with reservations := db.reservations.map (cancelRow rid) }
      let sms := sendSMS beh.transport owner.telephone "Reservation annulee"
      let notif := insertNotif db1 beh.notifInsertOk r.utilisateur_id r.id
        "Reservation annulee" (if sms.success then "sms_envoye" else "sms_echec")
      ⟨notif.1, .ok ⟨r.id, sms.success, notif.2⟩,
        ([Event.begin, Event.updateCancel [rid], Event.smsSend owner.telephone,
          Event.insertNotification]) ++ [Event.commit]⟩
    else ⟨db, .error .storage, [.begin, .rollback]⟩

/-! ## Priority booking (router.post('/prioritaire'), lines 336–526) -/

/-- The precondition pipeline of the priority handler (lines 352–380): the
same four checks as the create handler, with no conflict check — conflicts
are preempted, not rejected. -/
def priorityDecision (db : DB) (salle_id date s e today : Nat) :
    Except BookErr Salle :=
  if date < today then .error .pastDate
  else if e < s + 60 then .error .minDuration
  else
    match db.salles.find? (fun sa => sa.id == salle_id) with
    | none => .error .salleNonTrouvee
    | some salle =>
      if !(salle.statut == "disponible") then .error .salleNonDisponible
      else .ok salle

/-- `UPDATE reservations SET statut='annulee', updated_at=… WHERE id = ANY($2)`
applied to one row. -/
def cancelByIds (ids : List Nat) (r : Reservation) : Reservation :=
  if r.id ∈ ids then { r with statut := "annulee", updated := true } else r

/-- Successful response body of the priority handler;
`reservations_annulees` is the preempted-count field of the JSON response. -/
structure PriorityOk where
  reservation : Reservation
  reservations_annulees : Nat
  smsStatus : Bool
  notificationStatus : Bool
deriving DecidableEq, Repr

/-- The priority handler: BEGIN; preconditions 1–4; inline conflict query
(with owner join); bulk-cancel the conflicting rows; one preemption SMS and
one audit row per preempted owner; INSERT the new reservation; confirmation
SMS and audit row for the requesting admin; COMMIT.  `smsStatus` starts true
and is cleared by any failed send; `notificationStatus` is cleared by any
failed audit INSERT. -/
def priorityReservation (db : DB) (u : User) (salle_id date s e : Nat)
    (motif : Option String) (today : Nat) (beh : Behavior) :
    RunResult BookErr PriorityOk :=
  match priorityDecision db salle_id date s e today with
  | .error er => ⟨db, .error er, [.begin, .rollback]⟩
  | .ok salle =>
    let conflicts := conflictQuery db salle_id date s e
    let conflictIds := conflicts.map (fun p => p.1.id)
    if decide (0 < conflicts.length) && !beh.updateCancelOk then
      ⟨db, .error .storage, [.begin, .rollback]⟩
    else
      let db1 : DB := if 0 < conflicts.length then
          { db with reservations := db.reservations.map (cancelByIds conflictIds) }
        else db
      let ownerSms := conflicts.map (fun p =>
        sendSMS beh.transport p.2.telephone "Reservation modifiee")
      let db2 : DB := if beh.notifInsertOk then
          { db1 with notifications := db1.notifications ++ conflicts.map (fun p =>
              (⟨p.1.utilisateur_id, p.1.id, "Reservation annulee (prioritaire)",
                if (sendSMS beh.transport p.2.telephone "Reservation modifiee").success
                then "sms_envoye" else "sms_echec", false⟩ : NotifRow)) }
        else db1
      let notifStatus1 := conflicts.isEmpty || beh.notifInsertOk
      if beh.insertReservationOk then
        let newRes := mkReservation db2.nextId u.id salle_id date s e motif
        let db3 : DB := { db2 with
          reservations := db2.reservations ++ [newRes],
          nextId := db2.nextId + 1 }
        let adminSms := sendSMS beh.transport u.telephone "Reservation confirmee"
        let notif := insertNotif db3 beh.notifInsertOk u.id newRes.id
          ("Reservation prioritaire confirmee pour " ++ salle.nom)
          (if adminSms.success then "sms_envoye" else "sms_echec")
        ⟨notif.1,
         .ok ⟨newRes, conflicts.length, (ownerSms.all (fun r => r.success)) && adminSms.success,
              notifStatus1 && notif.2⟩,
         ([Event.begin]
            ++ (if 0 < conflicts.length then [Event.updateCancel conflictIds] else [])
            ++ (conflicts.flatMap (fun p => [Event.smsSend p.2.telephone, Event.insertNotification]))
            ++ [Event.insertReservation newRes.id, Event.smsSend u.telephone,
                Event.insertNotification]) ++ [Event.commit]⟩
      else
        ⟨db, .error .storage,
         ([Event.begin]
            ++ (if 0 < conflicts.length then [Event.updateCancel conflictIds] else [])
            ++ (conflicts.flatMap (fun p => [Event.smsSend p.2.telephone, Event.insertNotification])))
           ++ [Event.rollback]⟩

/-! ## The central invariant and reachable states -/

/-- Two rows are compatible when they are not simultaneously active on the
same room and date with overlapping (half-open) windows. -/
def compatible (r1 r2 : Reservation) : Bool :=
  !((r1.statut == "active") && (r2.statut == "active") &&
    (r1.salle_id == r2.salle_id) && (r1.date == r2.date) &&
    specOverlap r1.heure_debut r1.heure_fin r2.heure_debut r2.heure_fin)

/-- The central consistency invariant: pairwise, no two active reservations
on the same room and date have overlapping windows. -/
def activeNoOverlap (l : List Reservation) : Prop :=
  l.Pairwise (fun r1 r2 => compatible r1 r2 = true)

/-- Row facts maintained by every operation: minimum duration (60 minutes)
and owner registered in the users table. -/
def rowInv (users : List User) (r : Reservation) : Prop :=
  r.heure_debut + 60 ≤ r.heure_fin ∧
  (users.find? (fun x => x.id == r.utilisateur_id)).isSome = true

/-- The inductive invariant carried through every operation. -/
def FullInv (users : List User) (db : DB) : Prop :=
  db.utilisateurs = users ∧ (∀ r ∈ db.reservations, rowInv users r) ∧
  activeNoOverlap db.reservations

/-- States reachable from an initial state with no reservations by any
sequence of create / priority / cancel requests, issued sequentially with
arbitrary behaviors (failed requests leave the state unchanged).  Requesters
are authenticated principals, hence rows of the users table (the JWT
middleware authenticates registered users and `reservations.utilisateur_id`
references `utilisateurs`). -/
inductive Reachable (users : List User) (salles : List Salle) : DB → Prop
  | init : Reachable users salles ⟨users, salles, [], [], 0⟩
  | create (db : DB) (u : User) (salle_id date s e : Nat) (motif : Option String)
      (today : Nat) (beh : Behavior) (hu : u ∈ users)
      (hprev : Reachable users salles db) :
      Reachable users salles
        (createReservation db u salle_id date s e motif today beh).db
  | priority (db : DB) (u : User) (salle_id date s e : Nat) (motif : Option String)
      (today : Nat) (beh : Behavior) (hu : u ∈ users)
      (hprev : Reachable users salles db) :
      Reachable users salles
        (priorityReservation db u salle_id date s e motif today beh).db
  | cancel (db : DB) (u : User) (rid : Nat) (beh : Behavior)
      (hprev : Reachable users salles db) :
      Reachable users salles (cancelReservation db u rid beh).db

/-! ## Concrete fixtures used by witnesses and counterexamples -/

def user0 : User := ⟨1, "Alice", "+12345678901", "membre"⟩

def admin0 : User := ⟨2, "Bob", "+19876543210", "admin"⟩

def salle0 : Salle := ⟨1, "SalleA", "disponible"⟩

def db0 : DB := ⟨[user0, admin0], [salle0], [], [], 0⟩

/-- Everything-works oracle. -/
def behAll : Behavior := ⟨fun _ => true, true, true, true, true⟩

/-- Oracle whose Twilio transport fails for every number. -/
def behNoSms : Behavior := ⟨fun _ => false, true, true, true, true⟩

/-- A concrete successful create run on the empty reservation table. -/
def createRun0 : RunResult BookErr CreateOk :=
  createReservation db0 user0 1 10 540 660 none 10 behAll

/-- A concrete active reservation owned by `user0`. -/
def resA : Reservation := ⟨7, 1, 1, 10, 540, 660, "active", none, false⟩

/-- A database holding one active reservation that conflicts with the
priority request below. -/
def db1p : DB := ⟨[user0, admin0], [salle0], [resA], [], 8⟩

/-- A concrete priority run by `admin0` over the window (570, 690), which
overlaps `resA`. -/
def prioRun0 : RunResult BookErr PriorityOk :=
  priorityReservation db1p admin0 1 10 570 690 none 10 behAll

/-- The response value of `prioRun0`. -/
def prioOk0 : PriorityOk :=
  ⟨⟨8, 2, 1, 10, 570, 690, "active", none, false⟩, 1, true, true⟩

/-! ## Basic lemmas about the predicates and the SMS service -/

/-- The SQL three-clause OR agrees with the spec's single half-open overlap
predicate whenever both windows have positive duration. -/
theorem conflictClause_eq_specOverlap (s1 e1 s2 e2 : Nat)
    (h1 : s1 < e1) (h2 : s2 < e2) :
    conflictClause s1 e1 s2 e2 = specOverlap s1 e1 s2 e2 := by
  apply Bool.eq_iff_iff.mpr
  simp only [conflictClause, specOverlap, Bool.or_eq_true, Bool.and_eq_true,
    decide_eq_true_eq]
  omega

/-- The spec overlap predicate is symmetric in its two windows. -/
theorem specOverlap_symm (s1 e1 s2 e2 : Nat) :
    specOverlap s1 e1 s2 e2 = specOverlap s2 e2 s1 e1 := by
  simp only [specOverlap]
  exact Bool.and_comm _ _

/-- The success flag computed by `sendSMS`: true exactly when the number
passes the format check and the transport delivers. -/
theorem sendSMS_success (transport : String → Bool) (dest message : String) :
    (sendSMS transport dest message).success = (phoneValid dest && transport dest) := by
  unfold sendSMS sendSMSBody
  by_cases hp : phoneValid dest
  · simp only [hp]
    by_cases ht : transport dest <;> simp [ht]
  · simp only [Bool.not_eq_true] at hp
    simp [hp]

/-- `sendSMS` returns the result object of its body when the body does not
throw, and a `success := false` object when it does. -/
theorem sendSMS_eq_catch (transport : String → Bool) (dest message : String) :
    sendSMS transport dest message =
      (match sendSMSBody transport dest message with
       | .ok r => r
       | .error _ => ⟨false, dest⟩) := rfl

theorem band_eq_true_iff (a b : Bool) : (a && b) = true ↔ a = true ∧ b = true := by
  cases a <;> cases b <;> simp

/-- `decide (0 < countP)` is `any`. -/
theorem countP_pos_eq_any {α : Type} (p : α → Bool) (l : List α) :
    decide (0 < l.countP p) = l.any p := by
  apply Bool.eq_iff_iff.mpr
  simp [List.countP_pos_iff, List.any_eq_true]

/-- Roster fan-out under a transport that fails for every number reports
aggregate failure. -/
theorem sendReservationSMS_transport_false
    (rosterQ : Except String (List User)) (a b c d : String) :
    (sendReservationSMS (fun _ => false) rosterQ a b c d).success = false := by
  unfold sendReservationSMS
  cases rosterQ with
  | error err => simp
  | ok users =>
    by_cases h : users.isEmpty
    · simp [h]
    · simp only [h, Bool.false_eq_true, if_false]
      have hz : (users.map (fun x => sendSMS (fun _ => false) x.telephone
          ("Nouvelle reservation Salle: " ++ a))).countP (fun r => r.success) = 0 := by
        apply List.countP_eq_zero.mpr
        intro r hr
        rcases List.mem_map.mp hr with ⟨x, _hx, rfl⟩
        simp [sendSMS_success]
      simp [hz]

/-- The create precondition pipeline succeeds when all five checks pass. -/
theorem createDecision_ok_of (db : DB) (salle_id date s e today : Nat) (salle : Salle)
    (htoday : ¬ date < today) (hdur : ¬ e < s + 60)
    (hsalle : db.salles.find? (fun sa => sa.id == salle_id) = some salle)
    (hdisp : salle.statut = "disponible")
    (hconf : checkReservationConflict db salle_id date s e none = false) :
    createDecision db salle_id date s e today = .ok salle := by
  unfold createDecision
  simp [htoday, hdur, hsalle, hdisp, hconf]

/-- The priority precondition pipeline (checks 1–4 only) succeeds when all
four pass. -/
theorem priorityDecision_ok_of (db : DB) (salle_id date s e today : Nat) (salle : Salle)
    (htoday : ¬ date < today) (hdur : ¬ e < s + 60)
    (hsalle : db.salles.find? (fun sa => sa.id == salle_id) = some salle)
    (hdisp : salle.statut = "disponible") :
    priorityDecision db salle_id date s e today = .ok salle := by
  unfold priorityDecision
  simp [htoday, hdur, hsalle, hdisp]

/-! ## Claim C4 -/

/-- C4: the three-clause OR over existing reservation windows evaluated by
`checkReservationConflict` and by the priority handler's inline query (both
are `conflictClause`) is, for every pair of windows with positive duration,
equal to the single half-open overlap predicate `s1 < e2 AND s2 < e1`; in
particular two windows that merely touch are never reported as a conflict. -/
theorem C4_conflictClause_refines_halfOpenOverlap (s1 e1 s2 e2 : Nat)
    (h1 : s1 < e1) (h2 : s2 < e2) :
    conflictClause s1 e1 s2 e2 = specOverlap s1 e1 s2 e2 ∧
    ((e1 = s2 ∨ e2 = s1) → conflictClause s1 e1 s2 e2 = false) := by
  refine ⟨conflictClause_eq_specOverlap s1 e1 s2 e2 h1 h2, fun h => ?_⟩
  apply Bool.eq_false_iff.mpr
  simp only [ne_eq, conflictClause, Bool.or_eq_true, Bool.and_eq_true,
    decide_eq_true_eq]
  omega

/-- Witness for C4 at the touching pair (540,660) and (660,720). -/
theorem C4_witness :
    conflictClause 540 660 660 720 = specOverlap 540 660 660 720 ∧
    ((660 = 660 ∨ 720 = 540) → conflictClause 540 660 660 720 = false) :=
  C4_conflictClause_refines_halfOpenOverlap 540 660 660 720 (by decide) (by decide)

/-! ## Claim C9 -/

/-- C9: `sendSMS` never throws — it is a total function whose result carries a
boolean `success`, equal to (valid international format AND transport
delivered); every failure of its try-block body, in particular an invalid
phone number, is mapped to `success = false` rather than a raised error; and
`sendReservationSMS` likewise returns `success = false` when the roster query
fails. -/
theorem C9_sendSMS_never_throws (transport : String → Bool) (dest message : String) :
    ((sendSMS transport dest message).success = (phoneValid dest && transport dest)) ∧
    (isOk (sendSMSBody transport dest message) = false →
      (sendSMS transport dest message).success = false) ∧
    (phoneValid dest = false → (sendSMS transport dest message).success = false) ∧
    (∀ (err nomSalle d h1 h2 : String),
      (sendReservationSMS transport (.error err) nomSalle d h1 h2).success = false) := by
  refine ⟨sendSMS_success transport dest message, ?_, ?_, ?_⟩
  · intro hb
    unfold sendSMS
    cases hbody : sendSMSBody transport dest message with
    | ok r => rw [hbody] at hb; simp [isOk] at hb
    | error e => rfl
  · intro hp
    rw [sendSMS_success, hp]
    rfl
  · intro err nomSalle d h1 h2
    rfl

/-- Witness for C9: malformed number `"abc"`, delivering transport — the
result is still a `success = false` object, not an error. -/
theorem C9_witness :
    (sendSMS (fun _ => true) "abc" "hello").success = false :=
  (C9_sendSMS_never_throws (fun _ => true) "abc" "hello").2.2.1 (by decide)

/-! ## Claim C7 -/

/-- C7: the roster fan-out's aggregate success flag is true iff at least one
recipient's dispatch succeeded; and when the transport fails for every
number, a create request that passes its preconditions still succeeds,
reporting aggregate notification status false. -/
theorem C7_roster_aggregate_success (transport : String → Bool)
    (rosterQ : Except String (List User)) (nomSalle dstr hd hf : String)
    (db : DB) (u : User) (salle_id date s e : Nat) (motif : Option String)
    (today : Nat) (beh : Behavior) (salle : Salle)
    (htoday : ¬ date < today) (hdur : ¬ e < s + 60)
    (hsalle : db.salles.find? (fun sa => sa.id == salle_id) = some salle)
    (hdisp : salle.statut = "disponible")
    (hconf : checkReservationConflict db salle_id date s e none = false)
    (hins : beh.insertReservationOk = true)
    (htr : beh.transport = fun _ => false) :
    ((sendReservationSMS transport rosterQ nomSalle dstr hd hf).success =
      (sendReservationSMS transport rosterQ nomSalle dstr hd hf).results.any
        (fun r => r.success)) ∧
    (isOk (createReservation db u salle_id date s e motif today beh).out = true ∧
     ∀ v, (createReservation db u salle_id date s e motif today beh).out = .ok v →
       v.smsStatus = false) := by
  have hdec := createDecision_ok_of db salle_id date s e today salle
    htoday hdur hsalle hdisp hconf
  constructor
  · unfold sendReservationSMS
    cases rosterQ with
    | error err => simp
    | ok users =>
      by_cases h : users.isEmpty
      · simp [h]
      · simp only [h, Bool.false_eq_true, if_false]
        rw [countP_pos_eq_any]
  · unfold createReservation
    rw [hdec]
    simp only [hins, if_true]
    constructor
    · rfl
    · intro v hv
      simp only [Except.ok.injEq] at hv
      rw [← hv]
      simp only [htr]
      exact sendReservationSMS_transport_false _ _ _ _ _

/-- Witness for C7: empty reservation table, available room, transport that
always fails; the booking succeeds with `smsStatus = false`. -/
theorem C7_witness :
    isOk (createReservation db0 user0 1 10 540 660 none 10 behNoSms).out = true ∧
    ∀ v, (createReservation db0 user0 1 10 540 660 none 10 behNoSms).out = .ok v →
      v.smsStatus = false :=
  (C7_roster_aggregate_success (fun _ => false) (.ok []) "x" "x" "x" "x"
    db0 user0 1 10 540 660 none 10 behNoSms salle0
    (by decide) (by decide) (by decide) (by decide) (by decide) (by decide) rfl).2

/-! ## Characterization of the create pipeline (claim C3) -/

/-- `insertNotif` only writes the notifications table. -/
theorem insertNotif_reservations (db : DB) (ok : Bool) (uid rid : Nat) (m t : String) :
    (insertNotif db ok uid rid m t).1.reservations = db.reservations := by
  unfold insertNotif
  by_cases h : ok <;> simp [h]

theorem insertNotif_utilisateurs (db : DB) (ok : Bool) (uid rid : Nat) (m t : String) :
    (insertNotif db ok uid rid m t).1.utilisateurs = db.utilisateurs := by
  unfold insertNotif
  by_cases h : ok <;> simp [h]

theorem insertNotif_salles (db : DB) (ok : Bool) (uid rid : Nat) (m t : String) :
    (insertNotif db ok uid rid m t).1.salles = db.salles := by
  unfold insertNotif
  by_cases h : ok <;> simp [h]

theorem insertNotif_nextId (db : DB) (ok : Bool) (uid rid : Nat) (m t : String) :
    (insertNotif db ok uid rid m t).1.nextId = db.nextId := by
  unfold insertNotif
  by_cases h : ok <;> simp [h]

/-- Complete case analysis of the create precondition pipeline: which error
comes out for which input, in source order with short-circuiting. -/
theorem createDecision_cases (db : DB) (salle_id date s e today : Nat) :
    (createDecision db salle_id date s e today = .error .pastDate ↔ date < today) ∧
    (createDecision db salle_id date s e today = .error .minDuration ↔
      ¬ date < today ∧ e < s + 60) ∧
    (createDecision db salle_id date s e today = .error .salleNonTrouvee ↔
      ¬ date < today ∧ ¬ e < s + 60 ∧
      db.salles.find? (fun sa => sa.id == salle_id) = none) ∧
    (createDecision db salle_id date s e today = .error .salleNonDisponible ↔
      ¬ date < today ∧ ¬ e < s + 60 ∧
      ∃ salle, db.salles.find? (fun sa => sa.id == salle_id) = some salle ∧
        ¬ salle.statut = "disponible") ∧
    (createDecision db salle_id date s e today = .error .creneauReserve ↔
      ¬ date < today ∧ ¬ e < s + 60 ∧
      ∃ salle, db.salles.find? (fun sa => sa.id == salle_id) = some salle ∧
        salle.statut = "disponible" ∧
        checkReservationConflict db salle_id date s e none = true) ∧
    ((∃ salle, createDecision db salle_id date s e today = .ok salle) ↔
      ¬ date < today ∧ ¬ e < s + 60 ∧
      ∃ salle, db.salles.find? (fun sa => sa.id == salle_id) = some salle ∧
        salle.statut = "disponible" ∧
        checkReservationConflict db salle_id date s e none = false) ∧
    (∀ salle, createDecision db salle_id date s e today = .ok salle →
      ¬ date < today ∧ ¬ e < s + 60 ∧
      db.salles.find? (fun sa => sa.id == salle_id) = some salle ∧
      salle.statut = "disponible" ∧
      checkReservationConflict db salle_id date s e none = false) := by
  unfold createDecision
  by_cases h1 : date < today
  · simp [h1]
  · by_cases h2 : e < s + 60
    · simp [h1, h2]
    · cases hf : db.salles.find? (fun sa => sa.id == salle_id) with
      | none => simp [h1, h2, hf]
      | some salle =>
        by_cases h4 : salle.statut = "disponible"
        · by_cases h5 : checkReservationConflict db salle_id date s e none
          · simp [h1, h2, hf, h4, h5]
          · simp only [Bool.not_eq_true] at h5
            simp [h1, h2, hf, h4, h5]
        · simp [h1, h2, hf, h4]

/-- C3: the create handler evaluates its five preconditions in source order,
the first failure determining the typed error and short-circuiting the rest;
only when all five hold (and the INSERT works) does the handler succeed, and
then exactly the one new row is appended. -/
theorem C3_create_precondition_order (db : DB) (u : User) (salle_id date s e : Nat)
    (motif : Option String) (today : Nat) (beh : Behavior)
    (hins : beh.insertReservationOk = true) :
    ((createReservation db u salle_id date s e motif today beh).out =
        .error .pastDate ↔ date < today) ∧
    ((createReservation db u salle_id date s e motif today beh).out =
        .error .minDuration ↔ ¬ date < today ∧ e < s + 60) ∧
    ((createReservation db u salle_id date s e motif today beh).out =
        .error .salleNonTrouvee ↔ ¬ date < today ∧ ¬ e < s + 60 ∧
      db.salles.find? (fun sa => sa.id == salle_id) = none) ∧
    ((createReservation db u salle_id date s e motif today beh).out =
        .error .salleNonDisponible ↔ ¬ date < today ∧ ¬ e < s + 60 ∧
      ∃ salle, db.salles.find? (fun sa => sa.id == salle_id) = some salle ∧
        ¬ salle.statut = "disponible") ∧
    ((createReservation db u salle_id date s e motif today beh).out =
        .error .creneauReserve ↔ ¬ date < today ∧ ¬ e < s + 60 ∧
      ∃ salle, db.salles.find? (fun sa => sa.id == salle_id) = some salle ∧
        salle.statut = "disponible" ∧
        checkReservationConflict db salle_id date s e none = true) ∧
    (isOk (createReservation db u salle_id date s e motif today beh).out = true ↔
      ¬ date < today ∧ ¬ e < s + 60 ∧
      ∃ salle, db.salles.find? (fun sa => sa.id == salle_id) = some salle ∧
        salle.statut = "disponible" ∧
        checkReservationConflict db salle_id date s e none = false) ∧
    (∀ v, (createReservation db u salle_id date s e motif today beh).out = .ok v →
      (createReservation db u salle_id date s e motif today beh).db.reservations =
        db.reservations ++ [mkReservation db.nextId u.id salle_id date s e motif] ∧
      v.reservation = mkReservation db.nextId u.id salle_id date s e motif) := by
  have hc := createDecision_cases db salle_id date s e today
  have hout : ∀ er : BookErr,
      ((createReservation db u salle_id date s e motif today beh).out = .error er ↔
        createDecision db salle_id date s e today = .error er) := by
    intro er
    cases hdec : createDecision db salle_id date s e today with
    | error e2 => simp [createReservation, hdec]
    | ok salle => simp [createReservation, hdec, hins]
  have hok : isOk (createReservation db u salle_id date s e motif today beh).out = true ↔
      ∃ salle, createDecision db salle_id date s e today = .ok salle := by
    cases hdec : createDecision db salle_id date s e today with
    | error e2 => simp [createReservation, hdec, isOk]
    | ok salle => simp [createReservation, hdec, hins, isOk]
  refine ⟨(hout _).trans hc.1, (hout _).trans hc.2.1, (hout _).trans hc.2.2.1,
    (hout _).trans hc.2.2.2.1, (hout _).trans hc.2.2.2.2.1,
    hok.trans hc.2.2.2.2.2.1, ?_⟩
  intro v hv
  cases hdec : createDecision db salle_id date s e today with
  | error e2 =>
    exact absurd hv (by simp [createReservation, hdec])
  | ok salle =>
    unfold createReservation at hv ⊢
    rw [hdec] at hv ⊢
    simp only [hins, if_true] at hv ⊢
    simp only [Except.ok.injEq] at hv
    constructor
    · rw [insertNotif_reservations]
    · rw [← hv]

/-- Witness for C3: a booking dated before today fails with the past-date
error. -/
theorem C3_witness :
    (createReservation db0 user0 1 3 540 660 none 10 behAll).out =
      .error .pastDate :=
  (C3_create_precondition_order db0 user0 1 3 540 660 none 10 behAll rfl).1.mpr
    (by decide)

/-! ## Characterization of the cancel pipeline (claim C6) -/

theorem cancelRow_id (rid : Nat) (r : Reservation) : (cancelRow rid r).id = r.id := by
  unfold cancelRow
  split <;> rfl

theorem cancelRow_uid (rid : Nat) (r : Reservation) :
    (cancelRow rid r).utilisateur_id = r.utilisateur_id := by
  unfold cancelRow
  split <;> rfl

theorem cancelRow_salle (rid : Nat) (r : Reservation) :
    (cancelRow rid r).salle_id = r.salle_id := by
  unfold cancelRow
  split <;> rfl

theorem cancelRow_of_match (rid : Nat) (r : Reservation) (h : (r.id == rid) = true) :
    cancelRow rid r = { r with statut := "annulee", updated := true } := by
  unfold cancelRow
  rw [if_pos h]

theorem find?_cons_pos {α : Type} (p : α → Bool) (a : α) (l : List α)
    (h : p a = true) : (a :: l).find? p = some a := by
  simp [List.find?_cons, h]

theorem find?_cons_neg {α : Type} (p : α → Bool) (a : α) (l : List α)
    (h : p a = false) : (a :: l).find? p = l.find? p := by
  simp [List.find?_cons, h]

/-- Finding by id commutes with the bulk `cancelRow` map (ids are preserved). -/
theorem find?_map_cancelRow (l : List Reservation) (rid : Nat) (r : Reservation)
    (h : l.find? (fun r2 => r2.id == rid) = some r) :
    (l.map (cancelRow rid)).find? (fun r2 => r2.id == rid) = some (cancelRow rid r) := by
  induction l with
  | nil => simp at h
  | cons a t ih =>
    simp only [List.map_cons]
    by_cases ha : (a.id == rid) = true
    · rw [find?_cons_pos (fun r2 => r2.id == rid) a t ha] at h
      injection h with h
      subst h
      have ha2 : ((cancelRow rid a).id == rid) = true := by rw [cancelRow_id]; exact ha
      exact find?_cons_pos (fun r2 => r2.id == rid) (cancelRow rid a) _ ha2
    · have haf : (a.id == rid) = false := by
        exact Bool.eq_false_iff.mpr ha
      have ha2 : ((cancelRow rid a).id == rid) = false := by rw [cancelRow_id]; exact haf
      rw [find?_cons_neg (fun r2 => r2.id == rid) a t haf] at h
      rw [find?_cons_neg (fun r2 => r2.id == rid) (cancelRow rid a) _ ha2]
      exact ih h

/-- The cancel decision pipeline, characterized on a successful lookup. -/
theorem cancelDecision_of_lookup (db : DB) (u : User) (rid : Nat)
    (r : Reservation) (owner : User) (sa : Salle)
    (hlk : cancelLookup db rid = some (r, owner, sa)) :
    (cancelDecision db u rid = .error .forbidden ↔
      ¬ u.role = "admin" ∧ ¬ r.utilisateur_id = u.id) ∧
    (cancelDecision db u rid = .error .invalidState ↔
      (u.role = "admin" ∨ r.utilisateur_id = u.id) ∧ ¬ r.statut = "active") ∧
    (cancelDecision db u rid = .ok (r, owner, sa) ↔
      (u.role = "admin" ∨ r.utilisateur_id = u.id) ∧ r.statut = "active") ∧
    ((∃ x, cancelDecision db u rid = .ok x) ↔
      (u.role = "admin" ∨ r.utilisateur_id = u.id) ∧ r.statut = "active") := by
  unfold cancelDecision
  rw [hlk]
  by_cases hadm : u.role = "admin"
  · by_cases hst : r.statut = "active" <;> simp [hadm, hst]
  · by_cases hown : r.utilisateur_id = u.id
    · by_cases hst : r.statut = "active" <;> simp [hadm, hown, hst]
    · simp [hadm, hown]

/-- A failing cancel decision surfaces as the corresponding typed error. -/
theorem cancelReservation_out_of_decision_error (db : DB) (u : User) (rid : Nat)
    (beh : Behavior) (er : CancelErr)
    (h : cancelDecision db u rid = .error er) :
    (cancelReservation db u rid beh).out = .error er := by
  unfold cancelReservation
  rw [h]

/-- Shape of a successful cancel run. -/
theorem cancelReservation_ok_case (db : DB) (u : User) (rid : Nat) (beh : Behavior)
    (r : Reservation) (owner : User) (sa : Salle)
    (hdec : cancelDecision db u rid = .ok (r, owner, sa))
    (hupd : beh.updateCancelOk = true) :
    (cancelReservation db u rid beh).db.reservations =
        db.reservations.map (cancelRow rid) ∧
    (cancelReservation db u rid beh).db.utilisateurs = db.utilisateurs ∧
    (cancelReservation db u rid beh).db.salles = db.salles ∧
    isOk (cancelReservation db u rid beh).out = true := by
  unfold cancelReservation
  rw [hdec]
  simp only [hupd, if_true]
  exact ⟨insertNotif_reservations _ _ _ _ _ _, insertNotif_utilisateurs _ _ _ _ _ _,
    insertNotif_salles _ _ _ _ _ _, rfl⟩

/-- C6: the cancel handler checks existence, then ownership/privilege, then
current status, in that order; on success the row transitions
`active → annulee` with its update timestamp set, a second cancel of the same
id then fails with the invalid-state error, an admin passes the permission
check on another user's reservation, and a non-admin non-owner fails it. -/
theorem C6_cancel_precondition_order (db : DB) (u : User) (rid : Nat) (beh : Behavior)
    (hupd : beh.updateCancelOk = true)
    (hint : ∀ r ∈ db.reservations,
      (db.utilisateurs.find? (fun x => x.id == r.utilisateur_id)).isSome = true ∧
      (db.salles.find? (fun sa => sa.id == r.salle_id)).isSome = true) :
    ((cancelReservation db u rid beh).out = .error .notFound ↔
      db.reservations.find? (fun r => r.id == rid) = none) ∧
    (∀ r, db.reservations.find? (fun r2 => r2.id == rid) = some r →
      (((cancelReservation db u rid beh).out = .error .forbidden ↔
          ¬ u.role = "admin" ∧ ¬ r.utilisateur_id = u.id) ∧
       ((cancelReservation db u rid beh).out = .error .invalidState ↔
          (u.role = "admin" ∨ r.utilisateur_id = u.id) ∧ ¬ r.statut = "active") ∧
       (isOk (cancelReservation db u rid beh).out = true ↔
          (u.role = "admin" ∨ r.utilisateur_id = u.id) ∧ r.statut = "active") ∧
       (isOk (cancelReservation db u rid beh).out = true →
          (cancelReservation db u rid beh).db.reservations =
            db.reservations.map (cancelRow rid) ∧
          cancelRow rid r = { r with statut := "annulee", updated := true } ∧
          (cancelReservation (cancelReservation db u rid beh).db u rid beh).out =
            .error .invalidState))) := by
  have hout : ∀ er : CancelErr,
      ((cancelReservation db u rid beh).out = .error er ↔
        cancelDecision db u rid = .error er) := by
    intro er
    cases hdec : cancelDecision db u rid with
    | error e2 => simp [cancelReservation, hdec]
    | ok x =>
      rcases x with ⟨r, owner, sa⟩
      simp [cancelReservation, hdec, hupd]
  have hok : isOk (cancelReservation db u rid beh).out = true ↔
      ∃ x, cancelDecision db u rid = .ok x := by
    cases hdec : cancelDecision db u rid with
    | error e2 => simp [cancelReservation, hdec, isOk]
    | ok x =>
      rcases x with ⟨r, owner, sa⟩
      simp [cancelReservation, hdec, hupd, isOk]
  constructor
  · rw [hout]
    unfold cancelDecision
    cases hr : db.reservations.find? (fun r2 => r2.id == rid) with
    | none => simp [cancelLookup, hr]
    | some r =>
      obtain ⟨how, hsa⟩ := hint r (List.mem_of_find?_eq_some hr)
      obtain ⟨owner, howner⟩ := Option.isSome_iff_exists.mp how
      obtain ⟨sa, hsalle⟩ := Option.isSome_iff_exists.mp hsa
      have hlk : cancelLookup db rid = some (r, owner, sa) := by
        simp [cancelLookup, hr, howner, hsalle]
      rw [hlk]
      by_cases hadm : u.role = "admin"
      · by_cases hst : r.statut = "active" <;> simp [hadm, hst]
      · by_cases hown : r.utilisateur_id = u.id
        · by_cases hst : r.statut = "active" <;> simp [hadm, hown, hst]
        · simp [hadm, hown]
  · intro r hr
    obtain ⟨how, hsa⟩ := hint r (List.mem_of_find?_eq_some hr)
    obtain ⟨owner, howner⟩ := Option.isSome_iff_exists.mp how
    obtain ⟨sa, hsalle⟩ := Option.isSome_iff_exists.mp hsa
    have hlk : cancelLookup db rid = some (r, owner, sa) := by
      simp [cancelLookup, hr, howner, hsalle]
    have hdc := cancelDecision_of_lookup db u rid r owner sa hlk
    refine ⟨(hout _).trans hdc.1, (hout _).trans hdc.2.1,
      hok.trans hdc.2.2.2, ?_⟩
    intro hsucc
    obtain ⟨hauth, hact⟩ := (hok.trans hdc.2.2.2).mp hsucc
    have hdec : cancelDecision db u rid = .ok (r, owner, sa) :=
      hdc.2.2.1.mpr ⟨hauth, hact⟩
    obtain ⟨hres, huser, hsalles, _⟩ :=
      cancelReservation_ok_case db u rid beh r owner sa hdec hupd
    have hid0 := List.find?_some hr
    have hid : (r.id == rid) = true := hid0
    refine ⟨hres, cancelRow_of_match rid r hid, ?_⟩
    -- second cancel of the same id: the row is found, authorization still
    -- holds, but the status is now 'annulee'
    have hr2 : ((cancelReservation db u rid beh).db.reservations).find?
        (fun r2 => r2.id == rid) = some (cancelRow rid r) := by
      rw [hres]
      exact find?_map_cancelRow db.reservations rid r hr
    have howner2 : ((cancelReservation db u rid beh).db.utilisateurs).find?
        (fun x => x.id == (cancelRow rid r).utilisateur_id) = some owner := by
      rw [huser, cancelRow_uid]
      exact howner
    have hsalle2 : ((cancelReservation db u rid beh).db.salles).find?
        (fun sa2 => sa2.id == (cancelRow rid r).salle_id) = some sa := by
      rw [hsalles, cancelRow_salle]
      exact hsalle
    have hlk2 : cancelLookup (cancelReservation db u rid beh).db rid =
        some (cancelRow rid r, owner, sa) := by
      simp [cancelLookup, hr2, howner2, hsalle2]
    have hdc2 := cancelDecision_of_lookup (cancelReservation db u rid beh).db
      u rid (cancelRow rid r) owner sa hlk2
    have hnotactive : ¬ (cancelRow rid r).statut = "active" := by
      rw [cancelRow_of_match rid r hid]
      simp
    have hauth2 : u.role = "admin" ∨ (cancelRow rid r).utilisateur_id = u.id := by
      rw [cancelRow_uid]
      exact hauth
    have hdec2 : cancelDecision (cancelReservation db u rid beh).db u rid =
        .error .invalidState := hdc2.2.1.mpr ⟨hauth2, hnotactive⟩
    exact cancelReservation_out_of_decision_error _ u rid beh _ hdec2

/-- Witness for C6: the owner cancels their own active reservation — the iff
for success holds at a concrete state with one active reservation. -/
theorem C6_witness :
    isOk (cancelReservation
      (⟨[user0, admin0], [salle0], [⟨7, 1, 1, 10, 540, 660, "active", none, false⟩], [], 8⟩ : DB)
      user0 7 behAll).out = true :=
  ((C6_cancel_precondition_order
      (⟨[user0, admin0], [salle0], [⟨7, 1, 1, 10, 540, 660, "active", none, false⟩], [], 8⟩ : DB)
      user0 7 behAll rfl (by decide)).2
    ⟨7, 1, 1, 10, 540, 660, "active", none, false⟩ (by decide)).2.2.1.mpr
    (by decide)

/-! ## Claim C8 -/

/-- C8: whenever any of the three write operations fails — with a typed
precondition error or a storage error — the returned database equals the
database before the request: the transaction is rolled back and no partial
mutation is observable. -/
theorem C8_rollback_on_failure (db : DB) (u : User) (salle_id date s e rid : Nat)
    (motif : Option String) (today : Nat) (beh : Behavior) :
    (isOk (createReservation db u salle_id date s e motif today beh).out = false →
      (createReservation db u salle_id date s e motif today beh).db = db) ∧
    (isOk (priorityReservation db u salle_id date s e motif today beh).out = false →
      (priorityReservation db u salle_id date s e motif today beh).db = db) ∧
    (isOk (cancelReservation db u rid beh).out = false →
      (cancelReservation db u rid beh).db = db) := by
  refine ⟨?_, ?_, ?_⟩
  · cases hdec : createDecision db salle_id date s e today with
    | error e2 => intro _; simp [createReservation, hdec]
    | ok salle =>
      by_cases hins : beh.insertReservationOk
      · intro h
        exfalso
        simp [createReservation, hdec, hins, isOk] at h
      · intro _
        simp [createReservation, hdec, hins]
  · cases hdec : priorityDecision db salle_id date s e today with
    | error e2 => intro _; simp [priorityReservation, hdec]
    | ok salle =>
      by_cases hupd : (decide (0 < (conflictQuery db salle_id date s e).length) &&
          !beh.updateCancelOk) = true
      · intro _
        simp only [priorityReservation, hdec]
        rw [if_pos hupd]
      · by_cases hins : beh.insertReservationOk
        · intro h
          exfalso
          simp only [priorityReservation, hdec] at h
          rw [if_neg hupd] at h
          simp only [hins, if_true, isOk] at h
          exact Bool.true_eq_false ▸ h  -- h : true = false
        · intro _
          simp only [priorityReservation, hdec]
          rw [if_neg hupd]
          simp [hins]
  · cases hdec : cancelDecision db u rid with
    | error e2 => intro _; simp [cancelReservation, hdec]
    | ok x =>
      rcases x with ⟨r, owner, sa⟩
      by_cases hupd : beh.updateCancelOk
      · intro h
        exfalso
        simp [cancelReservation, hdec, hupd, isOk] at h
      · intro _
        simp [cancelReservation, hdec, hupd]

/-- Witness for C8: a past-date create fails and leaves the database
unchanged. -/
theorem C8_witness :
    isOk (createReservation db0 user0 1 3 540 660 none 10 behAll).out = false ∧
    (createReservation db0 user0 1 3 540 660 none 10 behAll).db = db0 :=
  ⟨by decide,
   (C8_rollback_on_failure db0 user0 1 3 540 660 0 none 10 behAll).1 (by decide)⟩

/-! ## Claim C2: ordering of SMS dispatch and commit -/

theorem dropWhile_to_commit (l : List Event)
    (h : ∀ ev ∈ l, ev.isCommit = false) :
    (l ++ [Event.commit]).dropWhile (fun ev => !ev.isCommit) = [Event.commit] := by
  induction l with
  | nil => rfl
  | cons a t ih =>
    have ha : a.isCommit = false := h a (by simp)
    simp only [List.cons_append, List.dropWhile_cons, ha, Bool.not_false, if_true]
    exact ih (fun ev hev => h ev (by simp [hev]))

theorem allSmsBeforeCommit_append (l : List Event)
    (h : ∀ ev ∈ l, ev.isCommit = false) :
    allSmsBeforeCommit (l ++ [Event.commit]) = true := by
  unfold allSmsBeforeCommit
  rw [dropWhile_to_commit l h]
  simp [List.any_append, Event.isCommit, Event.isSms]

theorem isCommit_false_of_mem_smsMap (L : List SMSResult) (ev : Event)
    (hev : ev ∈ L.map (fun r => Event.smsSend r.dest)) :
    ev.isCommit = false := by
  rcases List.mem_map.mp hev with ⟨x, _, rfl⟩
  rfl

theorem isCommit_false_of_mem_smsNotifFlat (L : List (Reservation × User)) (ev : Event)
    (hev : ev ∈ L.flatMap
      (fun p => [Event.smsSend p.2.telephone, Event.insertNotification])) :
    ev.isCommit = false := by
  rcases List.mem_flatMap.mp hev with ⟨p, _, hp⟩
  rcases List.mem_cons.mp hp with rfl | hp2
  · rfl
  · rcases List.mem_singleton.mp hp2 with rfl
    rfl

theorem isCommit_false_of_mem_optUpdate (c : Prop) [Decidable c] (ids : List Nat)
    (ev : Event) (hev : ev ∈ (if c then [Event.updateCancel ids] else [])) :
    ev.isCommit = false := by
  by_cases hc : c
  · rw [if_pos hc] at hev
    rcases List.mem_singleton.mp hev with rfl
    rfl
  · rw [if_neg hc] at hev
    cases hev

/-- C2 counterexample: a concrete successful create run whose trace dispatches
an SMS strictly before the commit — refuting "the transaction commits first,
and only then do notification side effects run". -/
theorem C2_counterexample :
    isOk createRun0.out = true ∧ noSmsBeforeCommit createRun0.trace = false := by
  decide

/-- C2 as amended: for every successful create / priority / cancel execution,
every SMS dispatch happens inside the transaction — strictly before the
commit, which is present in the trace with no dispatch after it — and whether
the operation succeeds is independent of the SMS transport outcomes, so
notification failures still never roll the booking back or fail it. -/
theorem C2_sms_inside_transaction (db : DB) (u : User) (salle_id date s e rid : Nat)
    (motif : Option String) (today : Nat) (beh : Behavior) (t2 : String → Bool) :
    (isOk (createReservation db u salle_id date s e motif today beh).out = true →
      allSmsBeforeCommit (createReservation db u salle_id date s e motif today beh).trace
        = true) ∧
    (isOk (priorityReservation db u salle_id date s e motif today beh).out = true →
      allSmsBeforeCommit (priorityReservation db u salle_id date s e motif today beh).trace
        = true) ∧
    (isOk (cancelReservation db u rid beh).out = true →
      allSmsBeforeCommit (cancelReservation db u rid beh).trace = true) ∧
    (isOk (createReservation db u salle_id date s e motif today
        ⟨t2, beh.rosterQueryOk, beh.insertReservationOk, beh.updateCancelOk,
         beh.notifInsertOk⟩).out =
      isOk (createReservation db u salle_id date s e motif today beh).out) ∧
    (isOk (priorityReservation db u salle_id date s e motif today
        ⟨t2, beh.rosterQueryOk, beh.insertReservationOk, beh.updateCancelOk,
         beh.notifInsertOk⟩).out =
      isOk (priorityReservation db u salle_id date s e motif today beh).out) ∧
    (isOk (cancelReservation db u rid
        ⟨t2, beh.rosterQueryOk, beh.insertReservationOk, beh.updateCancelOk,
         beh.notifInsertOk⟩).out =
      isOk (cancelReservation db u rid beh).out) := by
  refine ⟨?_, ?_, ?_, ?_, ?_, ?_⟩
  · cases hdec : createDecision db salle_id date s e today with
    | error e2 => intro h; simp [createReservation, hdec, isOk] at h
    | ok salle =>
      by_cases hins : beh.insertReservationOk
      · intro _
        simp only [createReservation, hdec, hins, if_true]
        apply allSmsBeforeCommit_append
        intro ev hev
        rcases List.mem_append.mp hev with h1 | h1
        · rcases List.mem_append.mp h1 with h2 | h2
          · rcases List.mem_cons.mp h2 with rfl | h3
            · rfl
            · rcases List.mem_singleton.mp h3 with rfl
              rfl
          · exact isCommit_false_of_mem_smsMap _ ev h2
        · rcases List.mem_singleton.mp h1 with rfl
          rfl
      · intro h
        simp [createReservation, hdec, hins, isOk] at h
  · cases hdec : priorityDecision db salle_id date s e today with
    | error e2 => intro h; simp [priorityReservation, hdec, isOk] at h
    | ok salle =>
      by_cases hupd : (decide (0 < (conflictQuery db salle_id date s e).length) &&
          !beh.updateCancelOk) = true
      · intro h
        simp only [priorityReservation, hdec] at h
        rw [if_pos hupd] at h
        simp [isOk] at h
      · by_cases hins : beh.insertReservationOk
        · intro _
          simp only [priorityReservation, hdec]
          rw [if_neg hupd]
          simp only [hins, if_true]
          apply allSmsBeforeCommit_append
          intro ev hev
          rcases List.mem_append.mp hev with h1 | h1
          · rcases List.mem_append.mp h1 with h2 | h2
            · rcases List.mem_append.mp h2 with h3 | h3
              · rcases List.mem_singleton.mp h3 with rfl
                rfl
              · exact isCommit_false_of_mem_optUpdate _ _ ev h3
            · exact isCommit_false_of_mem_smsNotifFlat _ ev h2
          · rcases List.mem_cons.mp h1 with rfl | h2
            · rfl
            · rcases List.mem_cons.mp h2 with rfl | h3
              · rfl
              · rcases List.mem_singleton.mp h3 with rfl
                rfl
        · intro h
          simp only [priorityReservation, hdec] at h
          rw [if_neg hupd] at h
          simp [hins, isOk] at h
  · cases hdec : cancelDecision db u rid with
    | error e2 => intro h; simp [cancelReservation, hdec, isOk] at h
    | ok x =>
      rcases x with ⟨r, owner, sa⟩
      by_cases hupd : beh.updateCancelOk
      · intro _
        simp only [cancelReservation, hdec, hupd, if_true]
        apply allSmsBeforeCommit_append
        intro ev hev
        rcases List.mem_cons.mp hev with rfl | h2
        · rfl
        · rcases List.mem_cons.mp h2 with rfl | h3
          · rfl
          · rcases List.mem_cons.mp h3 with rfl | h4
            · rfl
            · rcases List.mem_singleton.mp h4 with rfl
              rfl
      · intro h
        simp [cancelReservation, hdec, hupd, isOk] at h
  · cases hdec : createDecision db salle_id date s e today with
    | error e2 => simp [createReservation, hdec]
    | ok salle =>
      by_cases hins : beh.insertReservationOk
      · simp [createReservation, hdec, hins, isOk]
      · simp [createReservation, hdec, hins, isOk]
  · cases hdec : priorityDecision db salle_id date s e today with
    | error e2 => simp [priorityReservation, hdec]
    | ok salle =>
      by_cases hupd : (decide (0 < (conflictQuery db salle_id date s e).length) &&
          !beh.updateCancelOk) = true
      · simp only [priorityReservation, hdec]
        rw [if_pos hupd, if_pos hupd]
      · by_cases hins : beh.insertReservationOk
        · simp only [priorityReservation, hdec]
          rw [if_neg hupd, if_neg hupd]
          simp [hins, isOk]
        · simp only [priorityReservation, hdec]
          rw [if_neg hupd, if_neg hupd]
          simp [hins, isOk]
  · cases hdec : cancelDecision db u rid with
    | error e2 => simp [cancelReservation, hdec]
    | ok x =>
      rcases x with ⟨r, owner, sa⟩
      by_cases hupd : beh.updateCancelOk
      · simp [cancelReservation, hdec, hupd, isOk]
      · simp [cancelReservation, hdec, hupd, isOk]

/-- Witness for the amended C2 at the concrete successful run. -/
theorem C2_witness :
    isOk createRun0.out = true ∧ allSmsBeforeCommit createRun0.trace = true :=
  ⟨by decide,
   (C2_sms_inside_transaction db0 user0 1 10 540 660 0 none 10 behAll
      (fun _ => true)).1 (by decide)⟩

/-! ## The priority handler: shape of a successful run (claims C5, C10) -/

theorem map_cancelByIds_nil (l : List Reservation) : l.map (cancelByIds []) = l := by
  induction l with
  | nil => rfl
  | cons a t ih =>
    have ha : cancelByIds [] a = a := by
      unfold cancelByIds
      rw [if_neg (List.not_mem_nil a.id)]
    rw [List.map_cons, ih, ha]

/-- Full reduction of a successful priority run: the response value and the
final reservation table. -/
theorem priorityReservation_ok_shape (db : DB) (u : User) (salle_id date s e : Nat)
    (motif : Option String) (today : Nat) (beh : Behavior) (salle : Salle)
    (hdec : priorityDecision db salle_id date s e today = .ok salle)
    (hins : beh.insertReservationOk = true)
    (hcnd : (decide (0 < (conflictQuery db salle_id date s e).length) &&
      !beh.updateCancelOk) = false) :
    (priorityReservation db u salle_id date s e motif today beh).out =
      .ok ⟨mkReservation db.nextId u.id salle_id date s e motif,
           (conflictQuery db salle_id date s e).length,
           ((conflictQuery db salle_id date s e).map (fun p =>
               sendSMS beh.transport p.2.telephone "Reservation modifiee")).all
             (fun r2 => r2.success) &&
             (sendSMS beh.transport u.telephone "Reservation confirmee").success,
           ((conflictQuery db salle_id date s e).isEmpty || beh.notifInsertOk) &&
             beh.notifInsertOk⟩ ∧
    (priorityReservation db u salle_id date s e motif today beh).db.reservations =
      db.reservations.map (cancelByIds
        ((conflictQuery db salle_id date s e).map (fun p => p.1.id))) ++
      [mkReservation db.nextId u.id salle_id date s e motif] ∧
    (priorityReservation db u salle_id date s e motif today beh).db.utilisateurs =
      db.utilisateurs := by
  unfold priorityReservation
  rw [hdec]
  by_cases hc : 0 < (conflictQuery db salle_id date s e).length
  · have hupd : beh.updateCancelOk = true := by
      rw [decide_eq_true hc] at hcnd
      simp at hcnd
      exact hcnd
    by_cases hn : beh.notifInsertOk
    · simp [hupd, hins, hc, hn, insertNotif]
    · simp [hupd, hins, hc, hn, insertNotif]
  · have hnil : conflictQuery db salle_id date s e = [] := by
      cases hq : conflictQuery db salle_id date s e with
      | nil => rfl
      | cons a t => rw [hq] at hc; simp at hc
    by_cases hn : beh.notifInsertOk
    · simp [hcnd, hins, hc, hn, insertNotif, hnil, map_cancelByIds_nil]
    · simp [hcnd, hins, hc, hn, insertNotif, hnil, map_cancelByIds_nil]

/-- The priority precondition pipeline can only fail with one of the four
checked errors — never with the slot-conflict error. -/
theorem priorityDecision_error_cases (db : DB) (salle_id date s e today : Nat)
    (er : BookErr) (h : priorityDecision db salle_id date s e today = .error er) :
    er = .pastDate ∨ er = .minDuration ∨ er = .salleNonTrouvee ∨
      er = .salleNonDisponible := by
  unfold priorityDecision at h
  split at h
  · injection h with h2
    exact Or.inl h2.symm
  · split at h
    · injection h with h2
      exact Or.inr (Or.inl h2.symm)
    · split at h
      · injection h with h2
        exact Or.inr (Or.inr (Or.inl h2.symm))
      · split at h
        · injection h with h2
          exact Or.inr (Or.inr (Or.inr h2.symm))
        · cases h

/-- After passing the four priority preconditions, the only possible error is
the generic storage error. -/
theorem priorityReservation_error_after_ok (db : DB) (u : User)
    (salle_id date s e : Nat) (motif : Option String) (today : Nat)
    (beh2 : Behavior) (salle : Salle)
    (hdec : priorityDecision db salle_id date s e today = .ok salle) :
    ∀ er, (priorityReservation db u salle_id date s e motif today beh2).out =
      .error er → er = .storage := by
  intro er h
  simp only [priorityReservation, hdec] at h
  by_cases hcnd : (decide (0 < (conflictQuery db salle_id date s e).length) &&
      !beh2.updateCancelOk) = true
  · rw [if_pos hcnd] at h
    simp only [Except.error.injEq] at h
    exact h.symm
  · rw [if_neg hcnd] at h
    by_cases hins2 : beh2.insertReservationOk = true
    · simp only [hins2, if_true] at h
      exact Except.noConfusion h
    · simp [hins2] at h
      exact h.symm

theorem countP_annulee_map_cancelByIds (l : List Reservation) (ids : List Nat) :
    (l.map (cancelByIds ids)).countP (fun r => r.statut == "annulee") =
      l.countP (fun r => r.statut == "annulee") +
      l.countP (fun r => decide (r.id ∈ ids) && !(r.statut == "annulee")) := by
  induction l with
  | nil => rfl
  | cons a t ih =>
    simp only [List.map_cons, List.countP_cons, ih]
    by_cases hid : a.id ∈ ids
    · have hca : cancelByIds ids a = { a with statut := "annulee", updated := true } := by
        unfold cancelByIds
        rw [if_pos hid]
      by_cases hst : (a.statut == "annulee") = true
      · simp [hca, hid, hst]
        omega
      · simp only [Bool.not_eq_true] at hst
        simp [hca, hid, hst]
        omega
    · have hca : cancelByIds ids a = a := by
        unfold cancelByIds
        rw [if_neg hid]
      simp [hca, hid]
      omega

theorem countP_congr_mem {α : Type} (p q : α → Bool) (l : List α)
    (h : ∀ a ∈ l, p a = q a) : l.countP p = l.countP q := by
  induction l with
  | nil => rfl
  | cons a t ih =>
    simp only [List.countP_cons, h a (by simp)]
    rw [ih (fun x hx => h x (by simp [hx]))]

theorem length_filterMap_of_isSome {α β : Type} (f : α → Option β) (l : List α)
    (h : ∀ a ∈ l, (f a).isSome = true) :
    (l.filterMap f).length = l.length := by
  induction l with
  | nil => rfl
  | cons a t ih =>
    obtain ⟨b, hb⟩ := Option.isSome_iff_exists.mp (h a (by simp))
    rw [List.filterMap_cons, hb, List.length_cons,
      ih (fun x hx => h x (by simp [hx])), List.length_cons]

/-- Under owner-integrity, the inner join of the priority conflict query
drops nothing: its length is the number of conflicting rows. -/
theorem conflictQuery_length (db : DB) (salle_id date s e : Nat)
    (hint : ∀ r ∈ db.reservations,
      (db.utilisateurs.find? (fun x => x.id == r.utilisateur_id)).isSome = true) :
    (conflictQuery db salle_id date s e).length =
      db.reservations.countP (reservationConflictRow salle_id date s e none) := by
  unfold conflictQuery
  rw [List.countP_eq_length_filter]
  apply length_filterMap_of_isSome
  intro r hr
  have hmem := (List.mem_filter.mp hr).1
  have hs := hint r hmem
  cases hfind : db.utilisateurs.find? (fun x => x.id == r.utilisateur_id) with
  | none =>
    rw [hfind] at hs
    cases hs
  | some x => rfl

/-- A row matching the conflict predicate has its id in the preempted-id
list, provided its owner exists in the users table. -/
theorem mem_conflictIds_of_pred (db : DB) (salle_id date s e : Nat) (r : Reservation)
    (hr : r ∈ db.reservations)
    (hpred : reservationConflictRow salle_id date s e none r = true)
    (how : (db.utilisateurs.find? (fun x => x.id == r.utilisateur_id)).isSome = true) :
    r.id ∈ (conflictQuery db salle_id date s e).map (fun p => p.1.id) := by
  obtain ⟨owner, howner⟩ := Option.isSome_iff_exists.mp how
  have hmemF : r ∈ db.reservations.filter (reservationConflictRow salle_id date s e none) :=
    List.mem_filter.mpr ⟨hr, hpred⟩
  have hmemQ : (r, owner) ∈ conflictQuery db salle_id date s e := by
    unfold conflictQuery
    apply List.mem_filterMap.mpr
    exact ⟨r, hmemF, by rw [howner]; rfl⟩
  exact List.mem_map.mpr ⟨(r, owner), hmemQ, rfl⟩

/-- Conversely (with unique reservation ids): a row whose id appears in the
preempted-id list matches the conflict predicate. -/
theorem pred_of_mem_conflictIds (db : DB) (salle_id date s e : Nat) (r : Reservation)
    (hr : r ∈ db.reservations)
    (hids : (db.reservations.map (fun r2 => r2.id)).Nodup)
    (hin : r.id ∈ (conflictQuery db salle_id date s e).map (fun p => p.1.id)) :
    reservationConflictRow salle_id date s e none r = true := by
  rcases List.mem_map.mp hin with ⟨p, hp, hpid⟩
  unfold conflictQuery at hp
  rcases List.mem_filterMap.mp hp with ⟨a, ha, hfa⟩
  cases hfind : db.utilisateurs.find? (fun x => x.id == a.utilisateur_id) with
  | none =>
    rw [hfind] at hfa
    cases hfa
  | some x =>
    rw [hfind] at hfa
    injection hfa with hfa
    have haF := List.mem_filter.mp ha
    have haid : a.id = r.id := by
      rw [← hfa] at hpid
      exact hpid
    have hae : a = r :=
      List.inj_on_of_nodup_map hids haF.1 hr haid
    rw [← hae]
    exact haF.2

/-- A row matching the conflict predicate is currently active. -/
theorem pred_statut_active (salle_id date s e : Nat) (r : Reservation)
    (h : reservationConflictRow salle_id date s e none r = true) :
    r.statut = "active" := by
  unfold reservationConflictRow at h
  simp only [Bool.and_eq_true, beq_iff_eq] at h
  tauto

/-! ## Claim C5 -/

/-- C5: when the priority request passes preconditions 1–4, the handler never
fails with the slot-conflict error (with any storage behavior); with working
storage it succeeds, transitions every active conflicting reservation on the
room and date to `annulee` within the same transaction, inserts the new
reservation as active, and reports a preempted count equal to the number of
reservations whose status the run changed to `annulee`. -/
theorem C5_priority_preempts_conflicts (db : DB) (u : User) (salle_id date s e : Nat)
    (motif : Option String) (today : Nat) (beh : Behavior) (salle : Salle)
    (htoday : ¬ date < today) (hdur : ¬ e < s + 60)
    (hsalle : db.salles.find? (fun sa => sa.id == salle_id) = some salle)
    (hdisp : salle.statut = "disponible")
    (hins : beh.insertReservationOk = true)
    (hupd : beh.updateCancelOk = true)
    (hids : (db.reservations.map (fun r => r.id)).Nodup)
    (hint : ∀ r ∈ db.reservations,
      (db.utilisateurs.find? (fun x => x.id == r.utilisateur_id)).isSome = true) :
    (∀ beh2 : Behavior,
      ¬ (priorityReservation db u salle_id date s e motif today beh2).out =
        .error .creneauReserve) ∧
    isOk (priorityReservation db u salle_id date s e motif today beh).out = true ∧
    (priorityReservation db u salle_id date s e motif today beh).db.reservations =
      db.reservations.map (cancelByIds
        ((conflictQuery db salle_id date s e).map (fun p => p.1.id))) ++
      [mkReservation db.nextId u.id salle_id date s e motif] ∧
    (∀ r ∈ db.reservations, reservationConflictRow salle_id date s e none r = true →
      ({ r with statut := "annulee", updated := true } : Reservation) ∈
        (priorityReservation db u salle_id date s e motif today beh).db.reservations) ∧
    (∀ v, (priorityReservation db u salle_id date s e motif today beh).out = .ok v →
      v.reservations_annulees =
        (priorityReservation db u salle_id date s e motif today beh).db.reservations.countP
          (fun r => r.statut == "annulee") -
        db.reservations.countP (fun r => r.statut == "annulee")) := by
  have hdec := priorityDecision_ok_of db salle_id date s e today salle
    htoday hdur hsalle hdisp
  have hcnd : (decide (0 < (conflictQuery db salle_id date s e).length) &&
      !beh.updateCancelOk) = false := by
    rw [hupd]
    simp
  have hshape := priorityReservation_ok_shape db u salle_id date s e motif today
    beh salle hdec hins hcnd
  refine ⟨?_, ?_, hshape.2.1, ?_, ?_⟩
  · intro beh2 h
    have h2 := priorityReservation_error_after_ok db u salle_id date s e motif
      today beh2 salle hdec BookErr.creneauReserve h
    exact BookErr.noConfusion h2
  · rw [hshape.1]
    rfl
  · intro r hr hpred
    rw [hshape.2.1]
    apply List.mem_append.mpr
    left
    have hin := mem_conflictIds_of_pred db salle_id date s e r hr hpred (hint r hr)
    have hcr : cancelByIds ((conflictQuery db salle_id date s e).map (fun p => p.1.id)) r =
        { r with statut := "annulee", updated := true } := by
      unfold cancelByIds
      rw [if_pos hin]
    rw [← hcr]
    exact List.mem_map_of_mem _ hr
  · intro v hv
    rw [hshape.1] at hv
    injection hv with hv
    subst hv
    rw [hshape.2.1, List.countP_append, countP_annulee_map_cancelByIds]
    have hnew : ([mkReservation db.nextId u.id salle_id date s e motif].countP
        (fun r => r.statut == "annulee")) = 0 := by
      simp [mkReservation]
    rw [hnew]
    have hxy : db.reservations.countP (fun r =>
        decide (r.id ∈ (conflictQuery db salle_id date s e).map (fun p => p.1.id)) &&
        !(r.statut == "annulee")) =
      db.reservations.countP (reservationConflictRow salle_id date s e none) := by
      apply countP_congr_mem
      intro r hr
      apply Bool.eq_iff_iff.mpr
      constructor
      · intro hb
        obtain ⟨h1, _h2⟩ := (band_eq_true_iff _ _).mp hb
        exact pred_of_mem_conflictIds db salle_id date s e r hr hids
          (of_decide_eq_true h1)
      · intro hb
        apply (band_eq_true_iff _ _).mpr
        refine ⟨decide_eq_true
          (mem_conflictIds_of_pred db salle_id date s e r hr hb (hint r hr)), ?_⟩
        rw [pred_statut_active salle_id date s e r hb]
        rfl
    rw [hxy, conflictQuery_length db salle_id date s e hint]
    dsimp only
    omega

/-- Witness for C5 at the concrete preempting run: the run succeeds and the
conflicting reservation is cancelled. -/
theorem C5_witness :
    isOk prioRun0.out = true ∧
    ({ resA with statut := "annulee", updated := true } : Reservation) ∈
      prioRun0.db.reservations :=
  ⟨(C5_priority_preempts_conflicts db1p admin0 1 10 570 690 none 10 behAll salle0
      (by decide) (by decide) (by decide) rfl rfl rfl (by decide) (by decide)).2.1,
   (C5_priority_preempts_conflicts db1p admin0 1 10 570 690 none 10 behAll salle0
      (by decide) (by decide) (by decide) rfl rfl rfl (by decide) (by decide)).2.2.2.1
     resA (by decide) (by decide)⟩

/-! ## Claim C10 -/

/-- C10: on a successful priority run, the reported `smsStatus` is the
conjunction of all individual dispatch outcomes — the preemption SMS to each
preempted owner and the confirmation SMS to the requesting admin — true iff
every one of them succeeded (unlike the at-least-one rule of the roster
fan-out). -/
theorem C10_priority_smsStatus_conjunction (db : DB) (u : User)
    (salle_id date s e : Nat) (motif : Option String) (today : Nat)
    (beh : Behavior) (salle : Salle)
    (htoday : ¬ date < today) (hdur : ¬ e < s + 60)
    (hsalle : db.salles.find? (fun sa => sa.id == salle_id) = some salle)
    (hdisp : salle.statut = "disponible")
    (hins : beh.insertReservationOk = true)
    (hupd : beh.updateCancelOk = true) :
    ∀ v, (priorityReservation db u salle_id date s e motif today beh).out = .ok v →
      (v.smsStatus =
        (((conflictQuery db salle_id date s e).map (fun p =>
            sendSMS beh.transport p.2.telephone "Reservation modifiee")).all
          (fun r2 => r2.success) &&
         (sendSMS beh.transport u.telephone "Reservation confirmee").success)) ∧
      (v.smsStatus = true ↔
        ((∀ p ∈ conflictQuery db salle_id date s e,
            (sendSMS beh.transport p.2.telephone "Reservation modifiee").success = true) ∧
         (sendSMS beh.transport u.telephone "Reservation confirmee").success = true)) := by
  have hdec := priorityDecision_ok_of db salle_id date s e today salle
    htoday hdur hsalle hdisp
  have hcnd : (decide (0 < (conflictQuery db salle_id date s e).length) &&
      !beh.updateCancelOk) = false := by
    rw [hupd]
    simp
  have hshape := priorityReservation_ok_shape db u salle_id date s e motif today
    beh salle hdec hins hcnd
  intro v hv
  rw [hshape.1] at hv
  injection hv with hv
  subst hv
  refine ⟨rfl, ?_⟩
  dsimp only
  constructor
  · intro hb
    obtain ⟨h1, h2⟩ := (band_eq_true_iff _ _).mp hb
    refine ⟨?_, h2⟩
    intro p hp
    exact List.all_eq_true.mp h1 _ (List.mem_map_of_mem _ hp)
  · rintro ⟨h1, h2⟩
    apply (band_eq_true_iff _ _).mpr
    refine ⟨?_, h2⟩
    apply List.all_eq_true.mpr
    intro x hx
    rcases List.mem_map.mp hx with ⟨p, hp, rfl⟩
    exact h1 p hp

/-- Witness for C10 at the concrete preempting run. -/
theorem C10_witness :
    prioOk0.smsStatus =
      (((conflictQuery db1p 1 10 570 690).map (fun p =>
          sendSMS behAll.transport p.2.telephone "Reservation modifiee")).all
        (fun r2 => r2.success) &&
       (sendSMS behAll.transport admin0.telephone "Reservation confirmee").success) :=
  ((C10_priority_smsStatus_conjunction db1p admin0 1 10 570 690 none 10 behAll salle0
      (by decide) (by decide) (by decide) rfl rfl rfl) prioOk0 rfl).1

/-! ## Claim C1: the no-overlap invariant is preserved by every operation -/

theorem compatible_of_not_active_left (r1 r2 : Reservation)
    (h : ¬ r1.statut = "active") : compatible r1 r2 = true := by
  unfold compatible
  have h2 : (r1.statut == "active") = false := by
    simp [h]
  rw [h2]
  simp

theorem compatible_of_not_active_right (r1 r2 : Reservation)
    (h : ¬ r2.statut = "active") : compatible r1 r2 = true := by
  unfold compatible
  have h2 : (r2.statut == "active") = false := by
    simp [h]
  rw [h2]
  simp

theorem cancelRow_cases (rid : Nat) (r : Reservation) :
    cancelRow rid r = r ∨
    cancelRow rid r = { r with statut := "annulee", updated := true } := by
  unfold cancelRow
  by_cases h : (r.id == rid) = true
  · right
    rw [if_pos h]
  · left
    rw [if_neg h]

theorem cancelByIds_cases (ids : List Nat) (r : Reservation) :
    cancelByIds ids r = r ∨
    cancelByIds ids r = { r with statut := "annulee", updated := true } := by
  unfold cancelByIds
  by_cases h : r.id ∈ ids
  · right
    rw [if_pos h]
  · left
    rw [if_neg h]

/-- Bulk status updates that only flip rows to `annulee` preserve pairwise
compatibility. -/
theorem statut_annulee_ne_active (r : Reservation) :
    ¬ ({ r with statut := "annulee", updated := true } : Reservation).statut = "active" := by
  intro h
  have h2 : ("annulee" : String) = "active" := h
  exact absurd h2 (by decide)

theorem pairwise_compatible_map (l : List Reservation) (f : Reservation → Reservation)
    (hf : ∀ r, f r = r ∨ f r = { r with statut := "annulee", updated := true })
    (hp : l.Pairwise (fun r1 r2 => compatible r1 r2 = true)) :
    (l.map f).Pairwise (fun r1 r2 => compatible r1 r2 = true) := by
  refine List.Pairwise.map f ?_ hp
  intro a b hab
  rcases hf a with ha | ha
  · rcases hf b with hb | hb
    · rw [ha, hb]
      exact hab
    · rw [hb]
      exact compatible_of_not_active_right _ _ (statut_annulee_ne_active b)
  · rw [ha]
    exact compatible_of_not_active_left _ _ (statut_annulee_ne_active a)

theorem rowInv_map_pres (users : List User) (f : Reservation → Reservation)
    (hf : ∀ r, f r = r ∨ f r = { r with statut := "annulee", updated := true })
    (r : Reservation) (h : rowInv users r) : rowInv users (f r) := by
  rcases hf r with hfr | hfr <;> rw [hfr]
  · exact h
  · exact ⟨h.1, h.2⟩

/-- A row on which the conflict predicate is false is compatible with the
freshly inserted row (the interesting case is where both are active on the
same room and date: there the three-clause SQL predicate coincides with the
half-open overlap check). -/
theorem compatible_new_of_row_false (salle_id date s e : Nat) (r : Reservation)
    (hdur_r : r.heure_debut + 60 ≤ r.heure_fin) (hdur_new : s + 60 ≤ e)
    (hrow : reservationConflictRow salle_id date s e none r = false)
    (nid uid : Nat) (motif : Option String) :
    compatible r (mkReservation nid uid salle_id date s e motif) = true := by
  by_cases hact : r.statut = "active"
  · by_cases hsa : r.salle_id = salle_id
    · by_cases hdt : r.date = date
      · unfold reservationConflictRow at hrow
        simp only [hsa, hdt, hact, beq_self_eq_true, Bool.true_and] at hrow
        have heq := conflictClause_eq_specOverlap s e r.heure_debut r.heure_fin
          (by omega) (by omega)
        rw [Bool.and_true] at hrow
        rw [heq] at hrow
        rw [specOverlap_symm] at hrow
        unfold compatible mkReservation
        simp [hact, hsa, hdt, hrow]
      · unfold compatible mkReservation
        simp [hdt]
    · unfold compatible mkReservation
      simp [hsa]
  · exact compatible_of_not_active_left _ _ hact

/-- If the create conflict check came back clean, every stored row fails the
row predicate. -/
theorem conflictRow_false_of_check (db : DB) (salle_id date s e : Nat)
    (h : checkReservationConflict db salle_id date s e none = false) :
    ∀ r ∈ db.reservations, reservationConflictRow salle_id date s e none r = false := by
  intro r hr
  by_cases hx : reservationConflictRow salle_id date s e none r = true
  · exfalso
    have h2 : checkReservationConflict db salle_id date s e none = true := by
      unfold checkReservationConflict
      exact List.any_eq_true.mpr ⟨r, hr, hx⟩
    rw [h] at h2
    exact Bool.noConfusion h2
  · exact Bool.eq_false_iff.mpr hx

/-- Shape of a successful create run (state fields). -/
theorem createReservation_ok_shape (db : DB) (u : User) (salle_id date s e : Nat)
    (motif : Option String) (today : Nat) (beh : Behavior) (salle : Salle)
    (hdec : createDecision db salle_id date s e today = .ok salle)
    (hins : beh.insertReservationOk = true) :
    (createReservation db u salle_id date s e motif today beh).db.reservations =
      db.reservations ++ [mkReservation db.nextId u.id salle_id date s e motif] ∧
    (createReservation db u salle_id date s e motif today beh).db.utilisateurs =
      db.utilisateurs := by
  unfold createReservation
  rw [hdec]
  simp only [hins, if_true]
  exact ⟨insertNotif_reservations _ _ _ _ _ _, insertNotif_utilisateurs _ _ _ _ _ _⟩

/-- The create precondition pipeline, read off a success. -/
theorem createDecision_ok_facts (db : DB) (salle_id date s e today : Nat)
    (salle : Salle) (h : createDecision db salle_id date s e today = .ok salle) :
    s + 60 ≤ e ∧ checkReservationConflict db salle_id date s e none = false := by
  unfold createDecision at h
  split at h
  · exact Except.noConfusion h
  · split at h
    · exact Except.noConfusion h
    · split at h
      · exact Except.noConfusion h
      · split at h
        · exact Except.noConfusion h
        · split at h
          · exact Except.noConfusion h
          · rename_i h1 h2 _ _ h5
            constructor
            · omega
            · simp only [Bool.not_eq_true] at h5
              exact h5

/-- The priority precondition pipeline, read off a success. -/
theorem priorityDecision_ok_facts (db : DB) (salle_id date s e today : Nat)
    (salle : Salle) (h : priorityDecision db salle_id date s e today = .ok salle) :
    s + 60 ≤ e := by
  unfold priorityDecision at h
  split at h
  · exact Except.noConfusion h
  · split at h
    · exact Except.noConfusion h
    · split at h
      · exact Except.noConfusion h
      · split at h
        · exact Except.noConfusion h
        · rename_i h1 h2 _ _
          omega

/-- A registered requester yields a well-formed owner lookup. -/
theorem find?_isSome_of_mem (users : List User) (u : User) (hu : u ∈ users) :
    (users.find? (fun x => x.id == u.id)).isSome = true := by
  cases hfind : users.find? (fun x => x.id == u.id) with
  | some x => rfl
  | none =>
    exfalso
    have := List.find?_eq_none.mp hfind u hu
    simp at this

/-- Invariant preservation: create. -/
theorem FullInv_create (users : List User) (db : DB) (u : User)
    (salle_id date s e : Nat) (motif : Option String) (today : Nat)
    (beh : Behavior) (hu : u ∈ users) (hinv : FullInv users db) :
    FullInv users (createReservation db u salle_id date s e motif today beh).db := by
  obtain ⟨husers, hrow, hpair⟩ := hinv
  cases hdec : createDecision db salle_id date s e today with
  | error e2 =>
    have hdb : (createReservation db u salle_id date s e motif today beh).db = db := by
      unfold createReservation
      rw [hdec]
    rw [hdb]
    exact ⟨husers, hrow, hpair⟩
  | ok salle =>
    by_cases hins : beh.insertReservationOk = true
    · obtain ⟨hres, husr⟩ := createReservation_ok_shape db u salle_id date s e
        motif today beh salle hdec hins
      obtain ⟨hdur, hconf⟩ := createDecision_ok_facts db salle_id date s e today salle hdec
      refine ⟨by rw [husr]; exact husers, ?_, ?_⟩
      · intro r2 hr2
        rw [hres] at hr2
        rcases List.mem_append.mp hr2 with h1 | h1
        · exact hrow r2 h1
        · rcases List.mem_singleton.mp h1 with rfl
          constructor
          · exact hdur
          · exact find?_isSome_of_mem users u hu
      · unfold activeNoOverlap
        rw [hres]
        apply List.pairwise_append.mpr
        refine ⟨hpair, List.pairwise_singleton _ _, ?_⟩
        intro a ha b hb
        rcases List.mem_singleton.mp hb with rfl
        exact compatible_new_of_row_false salle_id date s e a (hrow a ha).1 hdur
          (conflictRow_false_of_check db salle_id date s e hconf a ha) _ _ _
    · have hdb : (createReservation db u salle_id date s e motif today beh).db = db := by
        simp [createReservation, hdec, hins]
      rw [hdb]
      exact ⟨husers, hrow, hpair⟩

/-- Invariant preservation: cancel. -/
theorem FullInv_cancel (users : List User) (db : DB) (u : User) (rid : Nat)
    (beh : Behavior) (hinv : FullInv users db) :
    FullInv users (cancelReservation db u rid beh).db := by
  obtain ⟨husers, hrow, hpair⟩ := hinv
  cases hdec : cancelDecision db u rid with
  | error e2 =>
    have hdb : (cancelReservation db u rid beh).db = db := by
      unfold cancelReservation
      rw [hdec]
    rw [hdb]
    exact ⟨husers, hrow, hpair⟩
  | ok x =>
    rcases x with ⟨r, owner, sa⟩
    by_cases hupd : beh.updateCancelOk = true
    · obtain ⟨hres, husr, _, _⟩ := cancelReservation_ok_case db u rid beh r owner sa
        hdec hupd
      refine ⟨by rw [husr]; exact husers, ?_, ?_⟩
      · intro r2 hr2
        rw [hres] at hr2
        rcases List.mem_map.mp hr2 with ⟨r0, hr0, rfl⟩
        exact rowInv_map_pres users (cancelRow rid) (cancelRow_cases rid) r0 (hrow r0 hr0)
      · unfold activeNoOverlap
        rw [hres]
        exact pairwise_compatible_map _ _ (cancelRow_cases rid) hpair
    · have hdb : (cancelReservation db u rid beh).db = db := by
        simp [cancelReservation, hdec, hupd]
      rw [hdb]
      exact ⟨husers, hrow, hpair⟩

/-- Invariant preservation: priority booking with preemption. -/
theorem FullInv_priority (users : List User) (db : DB) (u : User)
    (salle_id date s e : Nat) (motif : Option String) (today : Nat)
    (beh : Behavior) (hu : u ∈ users) (hinv : FullInv users db) :
    FullInv users (priorityReservation db u salle_id date s e motif today beh).db := by
  obtain ⟨husers, hrow, hpair⟩ := hinv
  cases hdec : priorityDecision db salle_id date s e today with
  | error e2 =>
    have hdb : (priorityReservation db u salle_id date s e motif today beh).db = db := by
      unfold priorityReservation
      rw [hdec]
    rw [hdb]
    exact ⟨husers, hrow, hpair⟩
  | ok salle =>
    by_cases hcnd : (decide (0 < (conflictQuery db salle_id date s e).length) &&
        !beh.updateCancelOk) = true
    · have hdb : (priorityReservation db u salle_id date s e motif today beh).db = db := by
        simp only [priorityReservation, hdec]
        rw [if_pos hcnd]
      rw [hdb]
      exact ⟨husers, hrow, hpair⟩
    · have hcnd2 : (decide (0 < (conflictQuery db salle_id date s e).length) &&
          !beh.updateCancelOk) = false := Bool.eq_false_iff.mpr hcnd
      by_cases hins : beh.insertReservationOk = true
      · obtain ⟨_, hres, husr⟩ := priorityReservation_ok_shape db u salle_id date s e
          motif today beh salle hdec hins hcnd2
        have hdur := priorityDecision_ok_facts db salle_id date s e today salle hdec
        refine ⟨by rw [husr]; exact husers, ?_, ?_⟩
        · intro r2 hr2
          rw [hres] at hr2
          rcases List.mem_append.mp hr2 with h1 | h1
          · rcases List.mem_map.mp h1 with ⟨r0, hr0, rfl⟩
            exact rowInv_map_pres users _ (cancelByIds_cases _) r0 (hrow r0 hr0)
          · rcases List.mem_singleton.mp h1 with rfl
            exact ⟨hdur, find?_isSome_of_mem users u hu⟩
        · unfold activeNoOverlap
          rw [hres]
          apply List.pairwise_append.mpr
          refine ⟨pairwise_compatible_map _ _ (cancelByIds_cases _) hpair,
            List.pairwise_singleton _ _, ?_⟩
          intro a ha b hb
          rcases List.mem_singleton.mp hb with rfl
          rcases List.mem_map.mp ha with ⟨r0, hr0, rfl⟩
          by_cases hid : r0.id ∈ (conflictQuery db salle_id date s e).map (fun p => p.1.id)
          · have hcr : cancelByIds ((conflictQuery db salle_id date s e).map
                (fun p => p.1.id)) r0 = { r0 with statut := "annulee", updated := true } := by
              unfold cancelByIds
              rw [if_pos hid]
            rw [hcr]
            exact compatible_of_not_active_left _ _ (statut_annulee_ne_active r0)
          · have hcr : cancelByIds ((conflictQuery db salle_id date s e).map
                (fun p => p.1.id)) r0 = r0 := by
              unfold cancelByIds
              rw [if_neg hid]
            rw [hcr]
            have hpred : reservationConflictRow salle_id date s e none r0 = false := by
              by_cases hp : reservationConflictRow salle_id date s e none r0 = true
              · exfalso
                apply hid
                have how : (db.utilisateurs.find?
                    (fun x => x.id == r0.utilisateur_id)).isSome = true := by
                  rw [husers]
                  exact (hrow r0 hr0).2
                exact mem_conflictIds_of_pred db salle_id date s e r0 hr0 hp how
              · exact Bool.eq_false_iff.mpr hp
            exact compatible_new_of_row_false salle_id date s e r0 (hrow r0 hr0).1
              hdur hpred _ _ _
      · have hdb : (priorityReservation db u salle_id date s e motif today beh).db = db := by
          simp only [priorityReservation, hdec]
          rw [if_neg hcnd]
          simp [hins]
        rw [hdb]
        exact ⟨husers, hrow, hpair⟩

/-- Every reachable state satisfies the full invariant. -/
theorem FullInv_reachable (users : List User) (salles : List Salle) (db : DB)
    (h : Reachable users salles db) : FullInv users db := by
  induction h with
  | init =>
    unfold FullInv activeNoOverlap
    refine ⟨rfl, ?_, ?_⟩
    · intro r hr
      cases hr
    · exact List.Pairwise.nil
  | create db u salle_id date s e motif today beh hu hprev ih =>
    exact FullInv_create users db u salle_id date s e motif today beh hu ih
  | priority db u salle_id date s e motif today beh hu hprev ih =>
    exact FullInv_priority users db u salle_id date s e motif today beh hu ih
  | cancel db u rid beh hprev ih =>
    exact FullInv_cancel users db u rid beh ih

/-- C1: in every state reachable by any sequence of create, priority-create
and cancel operations, no two distinct active reservations on the same room
and date have overlapping half-open windows. -/
theorem C1_active_windows_never_overlap (users : List User) (salles : List Salle)
    (db : DB) (h : Reachable users salles db) :
    activeNoOverlap db.reservations :=
  (FullInv_reachable users salles db h).2.2

/-- Witness for C1: the invariant holds after a concrete create step from the
initial state. -/
theorem C1_witness :
    activeNoOverlap
      ((createReservation db0 user0 1 10 540 660 none 10 behAll).db).reservations :=
  C1_active_windows_never_overlap [user0, admin0] [salle0] _
    (Reachable.create db0 user0 1 10 540 660 none 10 behAll (by simp)
      Reachable.init)

end MKBA
